import Mathlib

/-!
Verification development for the cursor-meter extension
(src/extension.ts, src/api.ts, src/types.ts).

The embedding models JavaScript runtime values reachable from the
extension's refresh path as an inductive `JsVal` (JSON values plus
`undefined`), the extension's mutable module state as `ExtState`,
and the orchestration functions (`getToken`, `refreshUsage`,
`fetchLastEvent`) as pure state transformers.  I/O outcomes (the
interactive prompt, the two HTTP fetches) are passed in as explicit
parameters: a fetch is `Except String JsVal` — a rejection carries the
`Error` message, a resolution carries the parsed JSON body.  JavaScript
numbers are modelled as rationals (the binary-double representation is
abstracted away; all values exercised here are exact in both models).
-/

namespace CursorMeter

/-- JavaScript runtime values reachable in this extension: the JSON
values plus `undefined` (produced by missing-property access). -/
inductive JsVal where
  | undefined
  | null
  | bool (b : Bool)
  | num (q : ℚ)
  | str (s : String)
  | arr (elems : List JsVal)
  | obj (fields : List (String × JsVal))

/-- Property lookup in an object's field list: the value of the first
field with the given key, `undefined` when no field has it. -/
def lookupField : List (String × JsVal) → String → JsVal
  | [], _ => .undefined
  | (k, v) :: rest, key => if k = key then v else lookupField rest key

/-- The message of the TypeError thrown by property access on
`undefined` or `null`. -/
def tyErrMsg (who k : String) : String :=
  "TypeError: cannot read properties of " ++ who ++ ", reading " ++ k

/-- JavaScript property access `v[k]`: throws a TypeError on
`undefined`/`null`, looks the key up on objects, and yields `undefined`
on the remaining primitives (none of the keys used by this extension is
a built-in property of a primitive). -/
def member : JsVal → String → Except String JsVal
  | .undefined, k => .error (tyErrMsg "undefined" k)
  | .null, k => .error (tyErrMsg "null" k)
  | .obj fs, k => .ok (lookupField fs k)
  | _, _ => .ok .undefined

/-- JavaScript `.length` access as used on `usageEvents.usageEventsDisplay`:
array and string lengths are numbers, `undefined`/`null` throw, other
values have no `length` property. -/
def jsLength : JsVal → Except String JsVal
  | .undefined => .error (tyErrMsg "undefined" "length")
  | .null => .error (tyErrMsg "null" "length")
  | .arr xs => .ok (.num xs.length)
  | .str s => .ok (.num s.length)
  | _ => .ok .undefined

/-- JavaScript truthiness of the modelled values. -/
def jsTruthy : JsVal → Bool
  | .undefined => false
  | .null => false
  | .bool b => b
  | .num q => decide (q ≠ 0)
  | .str s => decide (s ≠ "")
  | .arr _ => true
  | .obj _ => true

/-- The comparison `x > 0` for the operands produced by `jsLength`
(a number or `undefined`; a comparison against `undefined` is `NaN > 0`,
which is false). -/
def jsGtZero : JsVal → Bool
  | .num q => decide (0 < q)
  | .bool b => b
  | _ => false

/-- JavaScript index access `v[0]` as used on the event list. -/
def jsIndexZero : JsVal → Except String JsVal
  | .undefined => .error (tyErrMsg "undefined" "0")
  | .null => .error (tyErrMsg "null" "0")
  | .arr [] => .ok .undefined
  | .arr (x :: _) => .ok x
  | .str s =>
    .ok (match s.data with
         | [] => .undefined
         | c :: _ => .str (String.mk [c]))
  | _ => .ok .undefined

/-- Whether an object value has a field with the given key. -/
def containsKey : List (String × JsVal) → String → Bool
  | [], _ => false
  | (k, _) :: rest, key => k = key || containsKey rest key

/-- Whether `v` is an object carrying the field `k`. -/
def jsHasField (v : JsVal) (k : String) : Bool :=
  match v with
  | .obj fs => containsKey fs k
  | _ => false

/-- The field value when present, `undefined` otherwise (pure variant of
`member` restricted to non-throwing receivers). -/
def fieldD (v : JsVal) (k : String) : JsVal :=
  match v with
  | .obj fs => lookupField fs k
  | _ => .undefined

/-- Boolean list-prefix test (used to model `String.includes`). -/
def startsWithL : List Char → List Char → Bool
  | [], _ => true
  | _ :: _, [] => false
  | a :: s, b :: l => a == b && startsWithL s l

/-- Boolean infix test: does `l` contain `sub` as a contiguous run. -/
def containsSub : List Char → List Char → Bool
  | [], sub => startsWithL sub []
  | a :: t, sub => startsWithL sub (a :: t) || containsSub t sub

/-- JavaScript `s.includes(sub)`. -/
def jsIncludes (s sub : String) : Bool :=
  containsSub s.data sub.data

/-- The message of the `Error` built by `api.ts` for a non-2xx HTTP
status: `` `HTTP ${res.statusCode}: ${data.substring(0, 100)}` ``. -/
def httpErrorMessage (status : ℕ) (body : String) : String :=
  "HTTP " ++ toString status ++ ": " ++ (body.take 100)

/-- Left-pads a digit string with zeros up to width `k`. -/
def padZeros (k : ℕ) (s : String) : String :=
  if s.length < k then String.mk (List.replicate (k - s.length) '0') ++ s else s

/-- JavaScript `x.toFixed(digits)` on a rational: the decimal string of
`x` rounded to `digits` places, ties on the magnitude rounding up
(ECMA ToFixed picks the larger candidate for the magnitude). -/
def fixedString (digits : ℕ) (x : ℚ) : String :=
  let sign := if x < 0 then "-" else ""
  let p : ℤ := (10 : ℤ) ^ digits
  let n : ℤ := round (|x| * (p : ℚ))
  sign ++ toString (n / p) ++ "." ++ padZeros digits (toString (n % p))

/-- `formatCents` from extension.ts: `` `$${(cents / 100).toFixed(4)}` ``. -/
def formatCents (cents : ℚ) : String :=
  "$" ++ fixedString 4 (cents / 100)

/-- Digit grouping on a reversed digit list: a comma after every three
digits. -/
def groupRev : List Char → List Char
  | a :: b :: c :: d :: rest => a :: b :: c :: ',' :: groupRev (d :: rest)
  | l => l

/-- `n.toLocaleString()` on a natural number in a digit-grouping locale:
groups of three digits separated by commas. -/
def toLocaleStringNat (n : ℕ) : String :=
  String.mk (groupRev (toString n).data.reverse).reverse

/-- `formatTokens` from extension.ts. -/
def formatTokens : Option ℕ → String
  | none => "0"
  | some n => toLocaleStringNat n

/-- The percentage string computed by `updateStatusBar`:
`limit > 0 ? ((used / limit) * 100).toFixed(1) : '0.0'`. -/
def statusPercentage (used limit : ℚ) : String :=
  if 0 < limit then fixedString 1 (used / limit * 100) else "0.0"

/-- Modelled from the spec: rounding to one decimal place, the reference
the spec states the percentage against. -/
def roundTo1 (x : ℚ) : ℚ :=
  ((round (x * 10) : ℤ) : ℚ) / 10

/-! ## Typed records (src/types.ts) -/

/-- The `string | number` union of `usageBasedCosts`. -/
inductive StrOrNum where
  | str (s : String)
  | num (q : ℚ)

/-- `tokenUsage` sub-object of a `UsageEvent`; the four token counts are
independently optional, `totalCents` always present.  Token counts are
the integral values the API supplies, modelled as naturals. -/
structure TokenUsage where
  inputTokens : Option ℕ
  outputTokens : Option ℕ
  cacheWriteTokens : Option ℕ
  cacheReadTokens : Option ℕ
  totalCents : ℚ

/-- `UsageEvent` from types.ts. -/
structure UsageEvent where
  timestamp : String
  model : String
  kind : String
  requestsCosts : ℚ
  usageBasedCosts : StrOrNum
  isTokenBasedCall : Bool
  tokenUsage : TokenUsage
  owningUser : String
  cursorTokenFee : ℚ
  isChargeable : Bool

/-- `individualUsage.plan.breakdown` of a `UsageSummaryResponse`. -/
structure PlanBreakdown where
  included : ℚ
  bonus : ℚ
  total : ℚ

/-- `individualUsage.plan` of a `UsageSummaryResponse`. -/
structure PlanUsage where
  enabled : Bool
  used : ℚ
  limit : ℚ
  remaining : ℚ
  breakdown : PlanBreakdown
  autoSpend : ℚ
  apiSpend : ℚ
  autoLimit : ℚ
  apiLimit : ℚ

/-- `individualUsage.onDemand` of a `UsageSummaryResponse`. -/
structure OnDemandUsage where
  enabled : Bool
  used : ℚ
  limit : ℚ
  remaining : ℚ

/-- `individualUsage` of a `UsageSummaryResponse`. -/
structure IndividualUsage where
  plan : PlanUsage
  onDemand : OnDemandUsage

/-- `UsageSummaryResponse` from types.ts (`teamUsage` is
`Record<string, unknown>`). -/
structure UsageSummaryResponse where
  billingCycleStart : String
  billingCycleEnd : String
  membershipType : String
  limitType : String
  isUnlimited : Bool
  autoModelSelectedDisplayMessage : String
  namedModelSelectedDisplayMessage : String
  individualUsage : IndividualUsage
  teamUsage : List (String × JsVal)

/-- JSON encoding of a `PlanUsage` in the field order of types.ts. -/
def encodePlan (p : PlanUsage) : JsVal :=
  .obj [("enabled", .bool p.enabled), ("used", .num p.used),
        ("limit", .num p.limit), ("remaining", .num p.remaining),
        ("breakdown", .obj [("included", .num p.breakdown.included),
                            ("bonus", .num p.breakdown.bonus),
                            ("total", .num p.breakdown.total)]),
        ("autoSpend", .num p.autoSpend), ("apiSpend", .num p.apiSpend),
        ("autoLimit", .num p.autoLimit), ("apiLimit", .num p.apiLimit)]

/-- JSON encoding of an `OnDemandUsage`. -/
def encodeOnDemand (o : OnDemandUsage) : JsVal :=
  .obj [("enabled", .bool o.enabled), ("used", .num o.used),
        ("limit", .num o.limit), ("remaining", .num o.remaining)]

/-- JSON encoding of a full `UsageSummaryResponse`. -/
def encodeSummary (s : UsageSummaryResponse) : JsVal :=
  .obj [("billingCycleStart", .str s.billingCycleStart),
        ("billingCycleEnd", .str s.billingCycleEnd),
        ("membershipType", .str s.membershipType),
        ("limitType", .str s.limitType),
        ("isUnlimited", .bool s.isUnlimited),
        ("autoModelSelectedDisplayMessage", .str s.autoModelSelectedDisplayMessage),
        ("namedModelSelectedDisplayMessage", .str s.namedModelSelectedDisplayMessage),
        ("individualUsage", .obj [("plan", encodePlan s.individualUsage.plan),
                                  ("onDemand", encodeOnDemand s.individualUsage.onDemand)]),
        ("teamUsage", .obj s.teamUsage)]

/-! ## Tooltip rendering (createUsageTooltip, extension.ts) -/

/-- `formatTimestamp` renders the parsed epoch milliseconds with the
host's `Date.toLocaleString`, a locale-dependent rendering outside the
program; no claim depends on its text, so it is modelled as an
uninterpreted total function of the timestamp string. -/
def formatTimestamp (timestamp : String) : String :=
  timestamp

/-- The three cost-breakdown lines of the tooltip; the total is
`event.requestsCosts + event.tokenUsage.totalCents`. -/
def costLines (e : UsageEvent) : List String :=
  ["- Base Request: `" ++ formatCents e.requestsCosts ++ "`\n",
   "- Token Usage: `" ++ formatCents e.tokenUsage.totalCents ++ "`\n",
   "- **Total: `" ++ formatCents (e.requestsCosts + e.tokenUsage.totalCents) ++ "`**\n\n"]

/-- The token-usage lines of the tooltip: one line per optional token
count that is present (`!== undefined`), in source order. -/
def tokenLines (tu : TokenUsage) : List String :=
  (match tu.inputTokens with
   | some n => ["- Input: `" ++ formatTokens (some n) ++ "`\n"]
   | none => []) ++
  (match tu.outputTokens with
   | some n => ["- Output: `" ++ formatTokens (some n) ++ "`\n"]
   | none => []) ++
  (match tu.cacheWriteTokens with
   | some n => ["- Cache Write: `" ++ formatTokens (some n) ++ "`\n"]
   | none => []) ++
  (match tu.cacheReadTokens with
   | some n => ["- Cache Read: `" ++ formatTokens (some n) ++ "`\n"]
   | none => [])

/-- The tooltip as the sequence of `appendMarkdown` chunks of
`createUsageTooltip`. -/
def createUsageTooltipLines : Option UsageEvent → List String
  | none =>
    ["### Cursor Usage Details\n\n",
     "Click to refresh and load usage details."]
  | some e =>
    ["### Last Request\n\n",
     "**" ++ e.model ++ "**\n\n",
     "📅 " ++ formatTimestamp e.timestamp ++ "\n\n",
     "**Cost Breakdown:**\n"]
    ++ costLines e
    ++ ["**Token Usage:**\n"]
    ++ tokenLines e.tokenUsage
    ++ ["\n**Status:** " ++ (if jsIncludes e.kind "INCLUDED" then "✅ INCLUDED" else "💰 CHARGED")]

/-- The tooltip markdown text. -/
def createUsageTooltip (e : Option UsageEvent) : String :=
  String.join (createUsageTooltipLines e)

/-! ## Extension state and orchestration (extension.ts) -/

/-- The status-bar text, kept structured: `updateStatusBar` stores the
two numbers it interpolates (as the JsVals the refresh path passes),
`setStatusBarError` the reason string after `"$(error) Cursor Meter: "`. -/
inductive StatusText where
  | initial
  | usage (used limit : JsVal)
  | error (msg : String)

/-- The module-level mutable state of extension.ts: the secret storage
slot under `TOKEN_STORAGE_KEY`, the status-bar text, and the event
cache (`cachedLastEvent`, `lastEventFetchTime`). -/
structure ExtState where
  secretStorage : Option String
  statusText : StatusText
  cachedLastEvent : JsVal
  lastEventFetchTime : ℤ

/-- `EVENT_CACHE_DURATION = 5 * 60 * 1000` (milliseconds). -/
def EVENT_CACHE_DURATION : ℤ := 5 * 60 * 1000

/-- Result of `getToken`: the token (if any), the state after a possible
store, and whether the interactive prompt was shown. -/
structure TokenLookup where
  token : Option String
  state : ExtState
  prompted : Bool

/-- `promptForToken`: shows the masked input box (its outcome is the
`input` parameter); a non-empty trimmed entry is stored and returned. -/
def promptForToken (st : ExtState) (input : Option String) :
    Option String × ExtState :=
  match input with
  | none => (none, st)
  | some t =>
    if t.trim = "" then (none, st)
    else (some t.trim, { st with secretStorage := some t.trim })

/-- `getToken`: reads the stored token and prompts when it is falsy
(absent or empty). -/
def getToken (st : ExtState) (input : Option String) : TokenLookup :=
  match st.secretStorage with
  | some t =>
    if t = "" then
      let p := promptForToken st input
      ⟨p.1, p.2, true⟩
    else ⟨some t, st, false⟩
  | none =>
    let p := promptForToken st input
    ⟨p.1, p.2, true⟩

/-- JavaScript falsiness of the `string | undefined` token. -/
def jsStrFalsy : Option String → Bool
  | none => true
  | some s => decide (s = "")

/-- The `plan`-handling part of the `try` body of `refreshUsage`:
`const plan = usageSummary.individualUsage.plan; if (plan.enabled) ...`,
with property-access TypeErrors propagated to the catch. -/
def refreshBody (summary : JsVal) : Except String StatusText :=
  match member summary "individualUsage" with
  | .error m => .error m
  | .ok iu =>
    match member iu "plan" with
    | .error m => .error m
    | .ok plan =>
      match member plan "enabled" with
      | .error m => .error m
      | .ok en =>
        if jsTruthy en then
          match member plan "used" with
          | .error m => .error m
          | .ok used =>
            match member plan "limit" with
            | .error m => .error m
            | .ok lim => .ok (.usage used lim)
        else .ok (.error "Plan disabled")

/-- The catch block of `refreshUsage`: sets the generic failure text
and, when the error message contains `'401'`, deletes the stored token. -/
def catchRefresh (st : ExtState) (msg : String) : ExtState :=
  let st1 := { st with statusText := .error "Refresh failed" }
  if jsIncludes msg "401" then { st1 with secretStorage := none } else st1

/-- `refreshUsage`: token acquisition, summary fetch (its outcome is the
`fetch` parameter), plan rendering, and the catch block. -/
def refreshUsage (st : ExtState) (prompt : Option String)
    (fetch : Except String JsVal) : ExtState :=
  let r := getToken st prompt
  if jsStrFalsy r.token then
    { r.state with statusText := .error "No token" }
  else
    match fetch with
    | .error msg => catchRefresh r.state msg
    | .ok summary =>
      match refreshBody summary with
      | .ok t => { r.state with statusText := t }
      | .error msg => catchRefresh r.state msg

/-- The event selection of `fetchLastEvent`'s `try` body:
`usageEvents.usageEventsDisplay.length > 0` guards taking
`usageEvents.usageEventsDisplay[0]`; property-access TypeErrors
propagate to the catch. -/
def selectedEvent (resp : JsVal) : Except String (Option JsVal) :=
  match member resp "usageEventsDisplay" with
  | .error m => .error m
  | .ok lst =>
    match jsLength lst with
    | .error m => .error m
    | .ok len =>
      if jsGtZero len then
        match jsIndexZero lst with
        | .error m => .error m
        | .ok ev => .ok (some ev)
      else .ok none

/-- `fetchLastEvent`: returns the new state and whether the HTTP
last-events request was issued.  The cache guard returns immediately on
a fresh, truthy cache when not forcing; a fetch failure or an absent
selected event leaves the cache untouched (the catch only logs). -/
def fetchLastEvent (st : ExtState) (now : ℤ) (force : Bool)
    (prompt : Option String) (fetch : Except String JsVal) :
    ExtState × Bool :=
  if !force && jsTruthy st.cachedLastEvent
      && decide (now - st.lastEventFetchTime < EVENT_CACHE_DURATION) then
    (st, false)
  else
    let r := getToken st prompt
    if jsStrFalsy r.token then (r.state, false)
    else
      match fetch with
      | .error _ => (r.state, true)
      | .ok resp =>
        match selectedEvent resp with
        | .error _ => (r.state, true)
        | .ok none => (r.state, true)
        | .ok (some ev) =>
          ({ r.state with cachedLastEvent := ev, lastEventFetchTime := now }, true)

/-! ## Request body of the last-events fetch (src/api.ts) -/

/-- The JSON body `fetchUsageEvents` posts. -/
structure EventsRequestBody where
  teamId : ℤ
  startDate : String
  endDate : String
  page : ℤ
  pageSize : ℚ

/-- The declared default of the `pageSize` parameter of
`fetchUsageEvents` (`pageSize: number = 5`). -/
def defaultPageSize : ℚ := 5

/-- JavaScript `x || dflt` on a `string | undefined` operand. -/
def jsOrStr (x : Option String) (dflt : String) : String :=
  match x with
  | some s => if s = "" then dflt else s
  | none => dflt

/-- The request body built by `fetchUsageEvents`: `teamId: 0`, the
start/end dates defaulting to the last seven days, `page: 1`, and the
given page size. -/
def eventsRequestBody (now : ℤ) (startDate endDate : Option String)
    (pageSize : ℚ) : EventsRequestBody :=
  { teamId := 0
  , startDate := jsOrStr startDate (toString (now - 7 * 24 * 60 * 60 * 1000))
  , endDate := jsOrStr endDate (toString now)
  , page := 1
  , pageSize := pageSize }

/-! ## Auxiliary predicates and concrete fixtures -/

/-- Whether `v` is an object whose `individualUsage` field is an object
carrying a `plan` field — the shape `refreshUsage` needs to get past the
`usageSummary.individualUsage.plan` access without a well-formed plan
object being absent. -/
def hasPlanPath (v : JsVal) : Bool :=
  jsHasField v "individualUsage" && jsHasField (fieldD v "individualUsage") "plan"

/-- Detects a mismatch between `p` and `l` inside `l`'s extent, which
rules out `p` being a prefix of any extension of `l`. -/
def pfxConflict : List Char → List Char → Bool
  | [], _ => false
  | _ :: _, [] => false
  | a :: p, b :: l => a != b || pfxConflict p l

/-- Fixture: a state with a stored token and an empty event cache. -/
def stTok : ExtState := ⟨some "tok", .initial, .undefined, 0⟩

/-- Fixture: a state with a stored token and a just-fetched cached
event. -/
def stFresh : ExtState := ⟨some "tok", .initial, .obj [("model", .str "m")], 0⟩

/-- Fixture: a state with no stored token and a fresh cached event. -/
def stNoToken : ExtState := ⟨none, .initial, .obj [("model", .str "m")], 0⟩

/-- Fixture: a state displaying plan usage, with a stale cached event
(fetched at time 0). -/
def stDisplaying : ExtState :=
  ⟨some "tok", .usage (.num 595) (.num 40000), .obj [("model", .str "old")], 0⟩

/-- Fixture: a last-events response that succeeded with an empty event
list. -/
def emptyEventsResp : JsVal :=
  .obj [("totalUsageEventsCount", .num 0), ("usageEventsDisplay", .arr [])]

/-- Fixture: a summary whose plan is disabled while on-demand is enabled
with `used = 10`, `limit = 20`. -/
def planOffSummary : UsageSummaryResponse :=
  { billingCycleStart := "1696118400000", billingCycleEnd := "1698796800000"
  , membershipType := "pro", limitType := "user", isUnlimited := false
  , autoModelSelectedDisplayMessage := "", namedModelSelectedDisplayMessage := ""
  , individualUsage :=
    { plan := { enabled := false, used := 0, limit := 0, remaining := 0
              , breakdown := ⟨0, 0, 0⟩, autoSpend := 0, apiSpend := 0
              , autoLimit := 0, apiLimit := 0 }
    , onDemand := { enabled := true, used := 10, limit := 20, remaining := 10 } }
  , teamUsage := [] }

/-- Fixture: an event with only `inputTokens` present among the optional
token counts. -/
def sampleEvent : UsageEvent :=
  { timestamp := "1700000000000", model := "claude", kind := "USAGE_INCLUDED"
  , requestsCosts := 0, usageBasedCosts := .num 0, isTokenBasedCall := true
  , tokenUsage := { inputTokens := some 1234567, outputTokens := none
                  , cacheWriteTokens := none, cacheReadTokens := none
                  , totalCents := 595 }
  , owningUser := "u", cursorTokenFee := 3, isChargeable := false }

/-! ## Helper lemmas -/

lemma strData_append (a b : String) : (a ++ b).data = a.data ++ b.data := rfl

lemma not_pfx_of_conflict (p l z : List Char) (h : pfxConflict p l = true) :
    ¬ p <+: l ++ z := by
  induction p generalizing l with
  | nil => simp [pfxConflict] at h
  | cons a p ih =>
    cases l with
    | nil => simp [pfxConflict] at h
    | cons b l =>
      intro hpf
      rw [List.cons_append] at hpf
      rcases List.cons_prefix_cons.mp hpf with ⟨rfl, hrest⟩
      simp [pfxConflict] at h
      exact ih l h hrest

lemma startsWithL_append (sub : List Char) : ∀ (l z : List Char),
    startsWithL sub l = true → startsWithL sub (l ++ z) = true := by
  induction sub with
  | nil => intro l z _; rfl
  | cons a s ih =>
    intro l z h
    cases l with
    | nil => simp [startsWithL] at h
    | cons b t =>
      simp [startsWithL] at h ⊢
      exact ⟨h.1, ih t z h.2⟩

lemma containsSub_nilSub (z : List Char) : containsSub z [] = true := by
  cases z <;> simp [containsSub, startsWithL]

lemma containsSub_append_left (l z sub : List Char) (h : containsSub l sub = true) :
    containsSub (l ++ z) sub = true := by
  induction l with
  | nil =>
    cases sub with
    | nil => exact containsSub_nilSub z
    | cons a s => simp [containsSub, startsWithL] at h
  | cons a t ih =>
    simp only [containsSub, Bool.or_eq_true] at h ⊢
    rcases h with h | h
    · exact Or.inl (startsWithL_append sub (a :: t) z h)
    · exact Or.inr (ih h)

lemma jsIncludes_append_left (a b sub : String) (h : jsIncludes a sub = true) :
    jsIncludes (a ++ b) sub = true := by
  unfold jsIncludes at h ⊢
  rw [strData_append]
  exact containsSub_append_left _ _ _ h

lemma includes401_http (body : String) :
    jsIncludes (httpErrorMessage 401 body) "401" = true := by
  unfold httpErrorMessage
  exact jsIncludes_append_left ("HTTP " ++ toString 401 ++ ": ") (body.take 100) "401"
    (by decide)

lemma getToken_stored (st : ExtState) (p : Option String) (t : String)
    (h1 : st.secretStorage = some t) (h2 : t ≠ "") :
    getToken st p = ⟨some t, st, false⟩ := by
  unfold getToken
  rw [h1]
  simp [h2]

lemma jsStrFalsy_some {t : String} (h2 : t ≠ "") : jsStrFalsy (some t) = false := by
  simp [jsStrFalsy, h2]

lemma refreshUsage_stored_error (st : ExtState) (t : String) (p : Option String)
    (msg : String) (h1 : st.secretStorage = some t) (h2 : t ≠ "") :
    refreshUsage st p (.error msg) = catchRefresh st msg := by
  unfold refreshUsage
  rw [getToken_stored st p t h1 h2]
  simp [jsStrFalsy_some h2]

lemma refreshUsage_stored_ok (st : ExtState) (t : String) (p : Option String)
    (v : JsVal) (h1 : st.secretStorage = some t) (h2 : t ≠ "") :
    refreshUsage st p (.ok v) =
      (match refreshBody v with
       | .ok x => { st with statusText := x }
       | .error m => catchRefresh st m) := by
  unfold refreshUsage
  rw [getToken_stored st p t h1 h2]
  simp [jsStrFalsy_some h2]

lemma catchRefresh_401 (st : ExtState) (msg : String)
    (h : jsIncludes msg "401" = true) :
    catchRefresh st msg =
      { st with statusText := .error "Refresh failed", secretStorage := none } := by
  simp [catchRefresh, h]

lemma catchRefresh_no401 (st : ExtState) (msg : String)
    (h : jsIncludes msg "401" = false) :
    catchRefresh st msg = { st with statusText := .error "Refresh failed" } := by
  simp [catchRefresh, h]

lemma getToken_prompted_none (st : ExtState) (q : Option String)
    (h : st.secretStorage = none) : (getToken st q).prompted = true := by
  simp [getToken, h]

lemma lookupField_of_not_contains (fs : List (String × JsVal)) (k : String)
    (h : containsKey fs k = false) : lookupField fs k = .undefined := by
  induction fs with
  | nil => rfl
  | cons hd tl ih =>
    obtain ⟨k2, v⟩ := hd
    simp only [containsKey, Bool.or_eq_false_iff, decide_eq_false_iff_not] at h
    simp only [lookupField, if_neg h.1]
    exact ih h.2

lemma refreshBody_no_plan (v : JsVal) (h : hasPlanPath v = false) :
    ∃ m, refreshBody v = .error m ∧ jsIncludes m "401" = false := by
  cases v with
  | undefined => exact ⟨_, rfl, by decide⟩
  | null => exact ⟨_, rfl, by decide⟩
  | bool b => exact ⟨_, rfl, by decide⟩
  | num q => exact ⟨_, rfl, by decide⟩
  | str s => exact ⟨_, rfl, by decide⟩
  | arr xs => exact ⟨_, rfl, by decide⟩
  | obj fs =>
    simp only [hasPlanPath, jsHasField, fieldD, Bool.and_eq_false_iff] at h
    rcases h with h | h
    · have hlu := lookupField_of_not_contains fs _ h
      exact ⟨tyErrMsg "undefined" "plan", by simp [refreshBody, member, hlu], by decide⟩
    · cases hiu : lookupField fs "individualUsage" with
      | undefined =>
        exact ⟨tyErrMsg "undefined" "plan", by simp [refreshBody, member, hiu], by decide⟩
      | null =>
        exact ⟨tyErrMsg "null" "plan", by simp [refreshBody, member, hiu], by decide⟩
      | bool b =>
        exact ⟨tyErrMsg "undefined" "enabled", by simp [refreshBody, member, hiu], by decide⟩
      | num q =>
        exact ⟨tyErrMsg "undefined" "enabled", by simp [refreshBody, member, hiu], by decide⟩
      | str s =>
        exact ⟨tyErrMsg "undefined" "enabled", by simp [refreshBody, member, hiu], by decide⟩
      | arr xs =>
        exact ⟨tyErrMsg "undefined" "enabled", by simp [refreshBody, member, hiu], by decide⟩
      | obj fs2 =>
        rw [hiu] at h
        simp only [jsHasField] at h
        have hlu2 := lookupField_of_not_contains fs2 "plan" h
        exact ⟨tyErrMsg "undefined" "enabled",
               by simp [refreshBody, member, hiu, hlu2], by decide⟩

lemma round_nonneg_rat (x : ℚ) (h : 0 ≤ x) : 0 ≤ round x := by
  rw [round_eq]
  exact Int.floor_nonneg.mpr (by linarith)

lemma fixedString_roundTo1 (v : ℚ) (hv : 0 ≤ v) :
    fixedString 1 (roundTo1 v) = fixedString 1 v := by
  unfold fixedString roundTo1
  have h1 : 0 ≤ round (v * 10) := round_nonneg_rat _ (by linarith)
  have hr : (0 : ℚ) ≤ ((round (v * 10) : ℤ) : ℚ) / 10 := by positivity
  have habs : |v| = v := abs_of_nonneg hv
  have habs2 : |((round (v * 10) : ℤ) : ℚ) / 10| = ((round (v * 10) : ℤ) : ℚ) / 10 :=
    abs_of_nonneg hr
  have hkey : round (((round (v * 10) : ℤ) : ℚ) / 10 * ((10 : ℤ) ^ 1 : ℚ)) =
      round (v * ((10 : ℤ) ^ 1 : ℚ)) := by
    push_cast
    rw [pow_one, div_mul_cancel₀ _ (by norm_num : (10 : ℚ) ≠ 0), round_intCast]
  simp [habs, habs2, hkey, not_lt.mpr hv, not_lt.mpr hr]

lemma tooltip_line_cases (e : UsageEvent) (s : String)
    (hs : s ∈ createUsageTooltipLines (some e)) :
    s = "### Last Request\n\n" ∨
    s = "**" ++ e.model ++ "**\n\n" ∨
    s = "📅 " ++ formatTimestamp e.timestamp ++ "\n\n" ∨
    s = "**Cost Breakdown:**\n" ∨
    s = "- Base Request: `" ++ formatCents e.requestsCosts ++ "`\n" ∨
    s = "- Token Usage: `" ++ formatCents e.tokenUsage.totalCents ++ "`\n" ∨
    s = "- **Total: `" ++ formatCents (e.requestsCosts + e.tokenUsage.totalCents) ++ "`**\n\n" ∨
    s = "**Token Usage:**\n" ∨
    (∃ n, e.tokenUsage.inputTokens = some n ∧
      s = "- Input: `" ++ formatTokens (some n) ++ "`\n") ∨
    (∃ n, e.tokenUsage.outputTokens = some n ∧
      s = "- Output: `" ++ formatTokens (some n) ++ "`\n") ∨
    (∃ n, e.tokenUsage.cacheWriteTokens = some n ∧
      s = "- Cache Write: `" ++ formatTokens (some n) ++ "`\n") ∨
    (∃ n, e.tokenUsage.cacheReadTokens = some n ∧
      s = "- Cache Read: `" ++ formatTokens (some n) ++ "`\n") ∨
    s = "\n**Status:** " ++
      (if jsIncludes e.kind "INCLUDED" then "✅ INCLUDED" else "💰 CHARGED") := by
  rcases h1 : e.tokenUsage.inputTokens with _ | n1 <;>
  rcases h2 : e.tokenUsage.outputTokens with _ | n2 <;>
  rcases h3 : e.tokenUsage.cacheWriteTokens with _ | n3 <;>
  rcases h4 : e.tokenUsage.cacheReadTokens with _ | n4 <;>
  simp [createUsageTooltipLines, costLines, tokenLines, h1, h2, h3, h4] at hs ⊢ <;>
  tauto

/-! ## Claims -/

/-- C1, counterexample: on a successful summary fetch with
`plan.enabled = false` and `onDemand.enabled = true, used = 10,
limit = 20`, the refresh renders the error state `Plan disabled`
rather than any on-demand usage text. -/
theorem claim_C1_counterexample :
    (refreshUsage stTok none (.ok (encodeSummary planOffSummary))).statusText
      = .error "Plan disabled"
    ∧ ∀ u l, (refreshUsage stTok none (.ok (encodeSummary planOffSummary))).statusText
      ≠ .usage u l := by
  have h0 : (refreshUsage stTok none (.ok (encodeSummary planOffSummary))).statusText
      = .error "Plan disabled" := rfl
  exact ⟨h0, fun u l h => by rw [h0] at h; exact StatusText.noConfusion h⟩

/-- C1, amended: for every successful summary fetch whose plan
sub-object has `enabled = false`, the refresh renders the
`Plan disabled` error state regardless of the on-demand sub-object
(the source never reads `onDemand`). -/
theorem claim_C1_amended (st : ExtState) (t : String) (p : Option String)
    (s : UsageSummaryResponse) (h1 : st.secretStorage = some t) (h2 : t ≠ "")
    (h3 : s.individualUsage.plan.enabled = false) :
    (refreshUsage st p (.ok (encodeSummary s))).statusText = .error "Plan disabled" := by
  have hb : refreshBody (encodeSummary s) = .ok (.error "Plan disabled") := by
    obtain ⟨b1, b2, b3, b4, b5, b6, b7, ⟨⟨en, u, l, r, bd, a1, a2, a3, a4⟩, od⟩, tu⟩ := s
    simp only at h3
    subst h3
    rfl
  rw [refreshUsage_stored_ok st t p _ h1 h2]
  simp [hb]

/-- C1, witness for the amended claim at the concrete disabled-plan
summary. -/
theorem claim_C1_witness :
    (refreshUsage stTok none (.ok (encodeSummary planOffSummary))).statusText
      = .error "Plan disabled" :=
  claim_C1_amended stTok "tok" none planOffSummary rfl (by decide) rfl

/-- C2: for non-negative `used` and `limit`, the percentage string the
status-bar renderer computes is the decimal rendering of
`used / limit * 100` rounded to one decimal place when `limit > 0`, and
is `0.0` when `limit = 0` (the division branch is not taken). -/
theorem claim_C2 (used limit : ℚ) (hu : 0 ≤ used) (hl : 0 ≤ limit) :
    (0 < limit →
      statusPercentage used limit = fixedString 1 (roundTo1 (used / limit * 100)))
    ∧ (limit = 0 → statusPercentage used limit = "0.0") := by
  constructor
  · intro h
    unfold statusPercentage
    rw [if_pos h, fixedString_roundTo1]
    exact mul_nonneg (div_nonneg hu hl) (by norm_num)
  · intro h
    unfold statusPercentage
    rw [if_neg (by simp [h])]

/-- C2, witness at the README example `595/40000` and at `limit = 0`. -/
theorem claim_C2_witness :
    statusPercentage 595 40000 = fixedString 1 (roundTo1 (595 / 40000 * 100))
    ∧ statusPercentage 3 0 = "0.0" :=
  ⟨(claim_C2 595 40000 (by norm_num) (by norm_num)).1 (by norm_num),
   (claim_C2 3 0 (by norm_num) le_rfl).2 rfl⟩

/-- C3: when a refresh's summary fetch rejects with the HTTP 401 error
message, the stored credential is deleted, the display shows the
generic failure, and any subsequent `getToken` call finds no stored
token and prompts. -/
theorem claim_C3 (st : ExtState) (t : String) (p : Option String) (body : String)
    (h1 : st.secretStorage = some t) (h2 : t ≠ "") :
    (refreshUsage st p (.error (httpErrorMessage 401 body))).secretStorage = none
    ∧ (refreshUsage st p (.error (httpErrorMessage 401 body))).statusText
      = .error "Refresh failed"
    ∧ ∀ q, (getToken (refreshUsage st p (.error (httpErrorMessage 401 body))) q).prompted
      = true := by
  have hred : refreshUsage st p (.error (httpErrorMessage 401 body)) =
      { st with statusText := .error "Refresh failed", secretStorage := none } := by
    rw [refreshUsage_stored_error st t p _ h1 h2,
        catchRefresh_401 _ _ (includes401_http body)]
  exact ⟨by rw [hred], by rw [hred],
         fun q => getToken_prompted_none _ q (by rw [hred])⟩

/-- C3, witness at a concrete state and 401 body. -/
theorem claim_C3_witness :
    (refreshUsage stTok none (.error (httpErrorMessage 401 "unauthorized"))).secretStorage
      = none
    ∧ (refreshUsage stTok none (.error (httpErrorMessage 401 "unauthorized"))).statusText
      = .error "Refresh failed"
    ∧ ∀ q, (getToken (refreshUsage stTok none
        (.error (httpErrorMessage 401 "unauthorized"))) q).prompted = true :=
  claim_C3 stTok "tok" none "unauthorized" rfl (by decide)

/-- C4: a well-formed JSON summary that lacks the `plan` sub-object (or
its enclosing `individualUsage` object) makes the refresh transition to
the generic failure display; the TypeError is caught (the function
returns a state) and the stored token is untouched. -/
theorem claim_C4 (st : ExtState) (t : String) (p : Option String) (v : JsVal)
    (h1 : st.secretStorage = some t) (h2 : t ≠ "") (h3 : hasPlanPath v = false) :
    (refreshUsage st p (.ok v)).statusText = .error "Refresh failed"
    ∧ (refreshUsage st p (.ok v)).secretStorage = st.secretStorage := by
  obtain ⟨m, hm, hm401⟩ := refreshBody_no_plan v h3
  have hred : refreshUsage st p (.ok v) =
      { st with statusText := .error "Refresh failed" } := by
    rw [refreshUsage_stored_ok st t p v h1 h2]
    simp only [hm]
    exact catchRefresh_no401 _ _ hm401
  exact ⟨by rw [hred], by rw [hred, h1]⟩

/-- C4, witness at a summary object with no `individualUsage`. -/
theorem claim_C4_witness :
    (refreshUsage stTok none (.ok (.obj [("membershipType", .str "pro")]))).statusText
      = .error "Refresh failed"
    ∧ (refreshUsage stTok none (.ok (.obj [("membershipType", .str "pro")]))).secretStorage
      = stTok.secretStorage :=
  claim_C4 stTok "tok" none (.obj [("membershipType", .str "pro")]) rfl (by decide)
    (by decide)

/-- C5: a non-forced `fetchLastEvent` call while the cached event is
younger than the 5-minute TTL issues no HTTP request and leaves the
whole state — cache entry, fetch timestamp, token, display — unchanged,
whatever the network would have returned. -/
theorem claim_C5 (st : ExtState) (now : ℤ) (p : Option String)
    (fetch : Except String JsVal)
    (h1 : jsTruthy st.cachedLastEvent = true)
    (h2 : now - st.lastEventFetchTime < EVENT_CACHE_DURATION) :
    fetchLastEvent st now false p fetch = (st, false) := by
  unfold fetchLastEvent
  rw [if_pos]
  simp [h1, h2]

/-- C5, witness at a fresh cache one second after the fetch. -/
theorem claim_C5_witness :
    fetchLastEvent stFresh 1000 false none (.error "network down") = (stFresh, false) :=
  claim_C5 stFresh 1000 none (.error "network down") rfl (by decide)

/-- C6, counterexample: a forced `fetchLastEvent` call with no stored
token and a cancelled prompt issues no HTTP request, so force alone
does not guarantee a request. -/
theorem claim_C6_counterexample :
    fetchLastEvent stNoToken 100 true none (.ok emptyEventsResp)
      = (stNoToken, false) := rfl

/-- C6, amended: with `force = true` and an available stored token, the
HTTP last-events request is issued regardless of how fresh the cached
entry is — the TTL check is bypassed. -/
theorem claim_C6_amended (st : ExtState) (now : ℤ) (p : Option String)
    (t : String) (fetch : Except String JsVal)
    (h1 : st.secretStorage = some t) (h2 : t ≠ "") :
    (fetchLastEvent st now true p fetch).2 = true := by
  unfold fetchLastEvent
  rw [if_neg (by simp)]
  rw [getToken_stored st p t h1 h2]
  simp only [jsStrFalsy_some h2]
  rcases fetch with msg | resp
  · rfl
  · simp only
    rcases hse : selectedEvent resp with m | o
    · simp [hse]
    · rcases o with _ | ev <;> simp [hse]

/-- C6, witness: the cache is fresh (age 1 second) yet the forced call
still issues the request. -/
theorem claim_C6_witness :
    (fetchLastEvent stFresh 1000 true none (.error "x")).2 = true :=
  claim_C6_amended stFresh 1000 none "tok" (.error "x") rfl (by decide)

/-- C7, counterexample: a fetch that succeeds with an empty event list
leaves the state completely unchanged — the cache entry is retained,
but no `Refresh Failed` indicator is surfaced (the display stays the
previous usage text, contradicting the claimed indicator). -/
theorem claim_C7_counterexample :
    fetchLastEvent stDisplaying 10000000 false none (.ok emptyEventsResp)
      = (stDisplaying, true)
    ∧ stDisplaying.statusText = .usage (.num 595) (.num 40000)
    ∧ ∀ m, (fetchLastEvent stDisplaying 10000000 false none
        (.ok emptyEventsResp)).1.statusText ≠ .error m := by
  have h : fetchLastEvent stDisplaying 10000000 false none (.ok emptyEventsResp)
      = (stDisplaying, true) := rfl
  exact ⟨h, rfl, fun m hm => by rw [h] at hm; exact StatusText.noConfusion hm⟩

/-- C7, amended: with a stored token, a failed last-events fetch leaves
the state unchanged (the failure is only caught and logged), and so
does a fetch that succeeds without selecting an event (empty or
malformed list) — in neither case is any failure indicator surfaced. -/
theorem claim_C7_amended (st : ExtState) (now : ℤ) (force : Bool)
    (p : Option String) (t : String)
    (h1 : st.secretStorage = some t) (h2 : t ≠ "") :
    (∀ msg, (fetchLastEvent st now force p (.error msg)).1 = st)
    ∧ (∀ v, (selectedEvent v = .ok none ∨ ∃ m, selectedEvent v = .error m) →
        (fetchLastEvent st now force p (.ok v)).1 = st) := by
  constructor
  · intro msg
    unfold fetchLastEvent
    by_cases hc : (!force && jsTruthy st.cachedLastEvent
        && decide (now - st.lastEventFetchTime < EVENT_CACHE_DURATION)) = true
    · rw [if_pos hc]
    · rw [if_neg hc, getToken_stored st p t h1 h2]
      simp [jsStrFalsy_some h2]
  · intro v hv
    unfold fetchLastEvent
    by_cases hc : (!force && jsTruthy st.cachedLastEvent
        && decide (now - st.lastEventFetchTime < EVENT_CACHE_DURATION)) = true
    · rw [if_pos hc]
    · rw [if_neg hc, getToken_stored st p t h1 h2]
      rcases hv with hv | ⟨m, hv⟩ <;> simp [jsStrFalsy_some h2, hv]

/-- C7, witness at a stale cache: a failed fetch and an
empty-list fetch both leave the state untouched. -/
theorem claim_C7_witness :
    (fetchLastEvent stDisplaying 10000000 false none (.error "boom")).1 = stDisplaying
    ∧ (fetchLastEvent stDisplaying 10000000 false none
        (.ok emptyEventsResp)).1 = stDisplaying := by
  have h := claim_C7_amended stDisplaying 10000000 false none "tok" rfl (by decide)
  exact ⟨h.1 "boom", h.2 emptyEventsResp (Or.inl rfl)⟩

/-- C8, counterexample: called without an explicit page size,
`fetchUsageEvents` defaults `pageSize` to 5, not 1. -/
theorem claim_C8_counterexample :
    (eventsRequestBody 1700000000000 none none defaultPageSize).pageSize = 5
    ∧ (5 : ℚ) ≠ 1 :=
  ⟨rfl, by norm_num⟩

/-- C8, amended: without an explicit window or page size the request
body uses the lookback window `now - 7 days .. now` and
`pageSize = 5` (the extension's callers pass 1 explicitly). -/
theorem claim_C8_amended (now : ℤ) :
    eventsRequestBody now none none defaultPageSize =
      { teamId := 0, startDate := toString (now - 604800000)
      , endDate := toString now, page := 1, pageSize := 5 } := by
  unfold eventsRequestBody jsOrStr defaultPageSize
  norm_num

/-- C9: each of the four optional token-count fields produces a tooltip
line exactly when it is present — present fields render with
grouped-digit formatting, absent fields produce no line at all (no line
of the tooltip even starts with that field's label). -/
theorem claim_C9 (e : UsageEvent) :
    ((∀ n, e.tokenUsage.inputTokens = some n →
        ("- Input: `" ++ toLocaleStringNat n ++ "`\n") ∈ createUsageTooltipLines (some e))
      ∧ (e.tokenUsage.inputTokens = none →
        ∀ s ∈ createUsageTooltipLines (some e), ¬ "- Input:".data <+: s.data))
    ∧ ((∀ n, e.tokenUsage.outputTokens = some n →
        ("- Output: `" ++ toLocaleStringNat n ++ "`\n") ∈ createUsageTooltipLines (some e))
      ∧ (e.tokenUsage.outputTokens = none →
        ∀ s ∈ createUsageTooltipLines (some e), ¬ "- Output:".data <+: s.data))
    ∧ ((∀ n, e.tokenUsage.cacheWriteTokens = some n →
        ("- Cache Write: `" ++ toLocaleStringNat n ++ "`\n") ∈ createUsageTooltipLines (some e))
      ∧ (e.tokenUsage.cacheWriteTokens = none →
        ∀ s ∈ createUsageTooltipLines (some e), ¬ "- Cache Write:".data <+: s.data))
    ∧ ((∀ n, e.tokenUsage.cacheReadTokens = some n →
        ("- Cache Read: `" ++ toLocaleStringNat n ++ "`\n") ∈ createUsageTooltipLines (some e))
      ∧ (e.tokenUsage.cacheReadTokens = none →
        ∀ s ∈ createUsageTooltipLines (some e), ¬ "- Cache Read:".data <+: s.data)) := by
  refine ⟨⟨?_, ?_⟩, ⟨?_, ?_⟩, ⟨?_, ?_⟩, ⟨?_, ?_⟩⟩ <;>
  first
  | (intro n hn
     simp [createUsageTooltipLines, tokenLines, formatTokens, hn])
  | (intro h s hs
     rcases tooltip_line_cases e s hs with
       rfl | rfl | rfl | rfl | rfl | rfl | rfl | rfl |
       ⟨n, hn, rfl⟩ | ⟨n, hn, rfl⟩ | ⟨n, hn, rfl⟩ | ⟨n, hn, rfl⟩ | rfl <;>
     first
     | (rw [h] at hn; exact Option.noConfusion hn)
     | decide
     | (simp only [strData_append, List.append_assoc]
        exact not_pfx_of_conflict _ _ _ (by decide)))

/-- C9, witness at the fixture event: the present `inputTokens` field
renders grouped, and no line of the tooltip carries the absent
`outputTokens` field. -/
theorem claim_C9_witness :
    ("- Input: `" ++ toLocaleStringNat 1234567 ++ "`\n")
      ∈ createUsageTooltipLines (some sampleEvent)
    ∧ (∀ s ∈ createUsageTooltipLines (some sampleEvent), ¬ "- Output:".data <+: s.data)
    ∧ toLocaleStringNat 1234567 = "1,234,567" :=
  ⟨(claim_C9 sampleEvent).1.1 1234567 rfl,
   (claim_C9 sampleEvent).2.1.2 rfl,
   by decide⟩

/-- C10: the tooltip's cost lines render `requestsCosts`,
`tokenUsage.totalCents`, and their sum as the total (all via
`formatCents`); `cursorTokenFee` does not enter the tooltip at all. -/
theorem claim_C10 (e : UsageEvent) :
    ("- Base Request: `" ++ formatCents e.requestsCosts ++ "`\n")
      ∈ createUsageTooltipLines (some e)
    ∧ ("- Token Usage: `" ++ formatCents e.tokenUsage.totalCents ++ "`\n")
      ∈ createUsageTooltipLines (some e)
    ∧ ("- **Total: `" ++ formatCents (e.requestsCosts + e.tokenUsage.totalCents) ++ "`**\n\n")
      ∈ createUsageTooltipLines (some e)
    ∧ ∀ fee, createUsageTooltipLines (some { e with cursorTokenFee := fee })
        = createUsageTooltipLines (some e) := by
  refine ⟨?_, ?_, ?_, fun fee => rfl⟩ <;>
  simp [createUsageTooltipLines, costLines]

end CursorMeter
